import Mathlib

/-!
Verification development for the `spofify_integration` repository.

The embedding below translates `models.py` and `services.py` into Lean:

* Each Django model becomes a row structure; the database becomes a `Store`
  holding one list of rows per model, in insertion order (the order a SQLite
  table returns rows in for an unordered queryset).  Primary keys are modelled
  as `Nat` identifiers drawn from a counter `nextId` (the UUID primary keys of
  `models.py` are opaque; only freshness and equality matter).  Many-to-many
  sets are lists of related row ids; Django's `add` links by primary key and
  never duplicates a link.
* `Model.objects.get_or_create(**kwargs)` becomes a function on `Store` that
  filters by all kwargs: one match is returned as found, several raise
  `MultipleObjectsReturned`, none leads to an insert which raises
  `IntegrityError` when the row would violate the model's `unique_together`
  constraint (the store contract's uniqueness violation).
* `DateField` values are kept as the strings the service layer passes, but
  Django's `to_python` coercion is modelled: a string that is not a valid
  `YYYY-M(M)-D(D)` calendar date raises `ValidationError` at the album/song
  get-or-create before any row is read or written (`is_valid_date`).
* The album disambiguation fallback passes the resolved artist collection to
  a related `exact` lookup (`filter(name__iexact=..., artists=artists)`);
  Django raises `ValidationError` when preparing a collection for that
  lookup, so the fallback queryset is never constructed
  (`object_handling_album_fallback`).
* Django runs field validators (such as the `MinValueValidator` /
  `MaxValueValidator` pair on `Song.popularity`) only inside `full_clean`,
  which `services.py` never calls; accordingly the embedded store writes do
  not consult them.  The declared validator predicate is embedded separately
  as `popularity_range_ok`.
* Fallible operations return `Except DbError`; an uncaught Python exception is
  an `.error` value that propagates through the callers, exactly as the
  service code lets `DoesNotExist` and `MultipleObjectsReturned` propagate.
* The Spotify client is an external collaborator; it is modelled as a record
  of pure query functions.  The service code turns any client exception or
  empty result set into an early return, so a failing call is modelled as an
  empty candidate list.
* Python's `str.lower` is modelled by `String.toLower` (ASCII lowercasing,
  which covers every name the claims use).
-/

/-- ASCII lowercasing, the embedding of Python's `str.lower()` used by the
case-insensitive comparisons in `services.py` (written over the character
list so that it evaluates by kernel reduction). -/
def lower (s : String) : String := ⟨s.data.map Char.toLower⟩

/-! ## Data model (`models.py`) -/

/-- Row of the `Genre` model: `name` unique. -/
structure GenreRow where
  gid : Nat
  name : String
  deriving Repr, DecidableEq

/-- Row of the `Artist` model: `unique_together = ("name", "artist_id")`,
many-to-many `genres`. -/
structure ArtistRow where
  aid : Nat
  name : String
  artist_id : String
  genres : List Nat
  deriving Repr, DecidableEq

/-- Row of the `Album` model: `unique_together = ("name", "album_id")`,
many-to-many `artists`.  `release_date` is kept as the string the service
layer passes to the storage write. -/
structure AlbumRow where
  bid : Nat
  name : String
  release_date : String
  album_type : String
  album_id : String
  artists : List Nat
  deriving Repr, DecidableEq

/-- Row of the `Song` model: `unique_together = ("name", "release_date")`,
foreign key `album`, many-to-many `artists`, integer `popularity`. -/
structure SongRow where
  sid : Nat
  name : String
  albumRef : Nat
  release_date : String
  popularity : Int
  artists : List Nat
  deriving Repr, DecidableEq

/-- The relational store: one table per model plus a fresh-id counter. -/
structure Store where
  genres : List GenreRow
  artists : List ArtistRow
  albums : List AlbumRow
  songs : List SongRow
  nextId : Nat
  deriving Repr, DecidableEq

def emptyStore : Store := ⟨[], [], [], [], 0⟩

/-- The declared validator pair on `Song.popularity`
(`MinValueValidator(0)`, `MaxValueValidator(100)` in `models.py`).
Django evaluates these only inside `full_clean`, which the service layer
never invokes. -/
def popularity_range_ok (p : Int) : Bool := decide (0 ≤ p) && decide (p ≤ 100)

/-- Leap-year rule of the `datetime.date` constructor. -/
def is_leap_year (y : Nat) : Bool :=
  (y % 4 == 0 && y % 100 != 0) || y % 400 == 0

/-- Day count of a month, as enforced by the `datetime.date` constructor. -/
def days_in_month (y m : Nat) : Nat :=
  if m == 2 then (if is_leap_year y then 29 else 28)
  else if m == 4 || m == 6 || m == 9 || m == 11 then 30
  else 31

/-- Split a character list on `-` separators. -/
def splitDashes : List Char → List (List Char)
  | [] => [[]]
  | c :: rest =>
      let r := splitDashes rest
      if c == '-' then [] :: r
      else
        match r with
        | [] => [[c]]
        | g :: gs => (c :: g) :: gs

def all_digits (s : List Char) : Bool := s.all (fun c => c.isDigit)

def digits_to_nat (s : List Char) : Nat :=
  s.foldl (fun acc c => acc * 10 + (c.toNat - 48)) 0

/-- Django's `DateField` string coercion (`DateField.to_python`, backed by
`django.utils.dateparse.parse_date` and the `datetime.date` constructor): a
string is accepted exactly when it has the shape `YYYY-M(M)-D(D)` — four year
digits, one or two month and day digits — and denotes a real calendar date.
Any other string makes value preparation raise `ValidationError` before any
row is read or written, both in `.get()` and in `.create()`. -/
def is_valid_date (s : String) : Bool :=
  match splitDashes s.data with
  | [y, m, d] =>
      y.length == 4 && decide (1 ≤ m.length) && decide (m.length ≤ 2) &&
      decide (1 ≤ d.length) && decide (d.length ≤ 2) &&
      all_digits y && all_digits m && all_digits d &&
      (let yn := digits_to_nat y
       let mn := digits_to_nat m
       let dn := digits_to_nat d
       decide (1 ≤ yn) && decide (1 ≤ mn) && decide (mn ≤ 12) &&
       decide (1 ≤ dn) && decide (dn ≤ days_in_month yn mn))
  | _ => false

/-- Exceptions of the storage layer as they appear in `services.py`:
`IntegrityError` and `MultipleObjectsReturned` (caught in the album/song
wrappers), `DoesNotExist` (raised by `object_handling`), and Django's
`ValidationError` (raised by `DateField` coercion of an invalid date string
and by collection-valued related lookups; caught nowhere in `services.py`). -/
inductive DbError where
  | integrityError : DbError
  | multipleObjectsReturned : DbError
  | doesNotExist : String → DbError
  | validationError : DbError
  deriving Repr, DecidableEq

/-! ## Store primitives (Django `get_or_create` / queryset filter) -/

/-- `Genre.objects.get_or_create(name=name)`. -/
def Store.genreGetOrCreate (st : Store) (name : String) :
    Except DbError (Store × GenreRow × Bool) :=
  match st.genres.filter (fun r => r.name == name) with
  | [] =>
      if st.genres.any (fun r => r.name == name) then
        .error .integrityError
      else
        let r : GenreRow := ⟨st.nextId, name⟩
        .ok ({ st with genres := st.genres ++ [r], nextId := st.nextId + 1 }, r, true)
  | [r] => .ok (st, r, false)
  | _ => .error .multipleObjectsReturned

/-- `Artist.objects.get_or_create(name=name, artist_id=artist_id)`. -/
def Store.artistGetOrCreate (st : Store) (name artist_id : String) :
    Except DbError (Store × ArtistRow × Bool) :=
  match st.artists.filter (fun r => r.name == name && r.artist_id == artist_id) with
  | [] =>
      if st.artists.any (fun r => r.name == name && r.artist_id == artist_id) then
        .error .integrityError
      else
        let r : ArtistRow := ⟨st.nextId, name, artist_id, []⟩
        .ok ({ st with artists := st.artists ++ [r], nextId := st.nextId + 1 }, r, true)
  | [r] => .ok (st, r, false)
  | _ => .error .multipleObjectsReturned

/-- `Album.objects.get_or_create(name=..., release_date=..., album_type=...,
album_id=...)`; the `DateField` coercion of `release_date` raises
`ValidationError` for an invalid date string before any row is read or
written, and the insert enforces `unique_together = ("name", "album_id")`.
Rows keep the (valid) date string exactly as the service layer passes it. -/
def Store.albumGetOrCreate (st : Store) (name release_date album_type album_id : String) :
    Except DbError (Store × AlbumRow × Bool) :=
  if !(is_valid_date release_date) then .error .validationError
  else
    match st.albums.filter (fun r =>
        r.name == name && r.release_date == release_date &&
        r.album_type == album_type && r.album_id == album_id) with
    | [] =>
        if st.albums.any (fun r => r.name == name && r.album_id == album_id) then
          .error .integrityError
        else
          let r : AlbumRow := ⟨st.nextId, name, release_date, album_type, album_id, []⟩
          .ok ({ st with albums := st.albums ++ [r], nextId := st.nextId + 1 }, r, true)
    | [r] => .ok (st, r, false)
    | _ => .error .multipleObjectsReturned

/-- `Song.objects.get_or_create(name=..., album=..., release_date=...,
popularity=...)`; the `DateField` coercion of `release_date` raises
`ValidationError` for an invalid date string before any row is read or
written, and the insert enforces `unique_together = ("name",
"release_date")`. -/
def Store.songGetOrCreate (st : Store) (name : String) (albumRef : Nat)
    (release_date : String) (popularity : Int) :
    Except DbError (Store × SongRow × Bool) :=
  if !(is_valid_date release_date) then .error .validationError
  else
    match st.songs.filter (fun r =>
        r.name == name && r.albumRef == albumRef &&
        r.release_date == release_date && r.popularity == popularity) with
    | [] =>
        if st.songs.any (fun r => r.name == name && r.release_date == release_date) then
          .error .integrityError
        else
          let r : SongRow := ⟨st.nextId, name, albumRef, release_date, popularity, []⟩
          .ok ({ st with songs := st.songs ++ [r], nextId := st.nextId + 1 }, r, true)
    | [r] => .ok (st, r, false)
    | _ => .error .multipleObjectsReturned

/-- Django's additive many-to-many `add`: links each given id unless the link
already exists; never duplicates. -/
def m2mAdd (cur added : List Nat) : List Nat :=
  added.foldl (fun acc i => if acc.contains i then acc else acc ++ [i]) cur

/-- Persist an updated artist row (`artist.save()` after mutating it). -/
def Store.saveArtist (st : Store) (a : ArtistRow) : Store :=
  { st with artists := st.artists.map (fun r => if r.aid == a.aid then a else r) }

/-- Persist an updated album row (`album.save()` after mutating it). -/
def Store.saveAlbum (st : Store) (b : AlbumRow) : Store :=
  { st with albums := st.albums.map (fun r => if r.bid == b.bid then b else r) }

/-- Persist an updated song row (`song.save()` after mutating it). -/
def Store.saveSong (st : Store) (s : SongRow) : Store :=
  { st with songs := st.songs.map (fun r => if r.sid == s.sid then s else r) }

/-! ## `SpotifyService.object_handling` (services.py lines 31-52)

`object_type.objects.filter(**obj_params)`: if the queryset is non-empty the
first row is returned, otherwise `DoesNotExist` is raised.  The dynamic
single function of the Python source becomes one function per model. -/

def object_handling_genre (st : Store) (p : GenreRow → Bool) : Except DbError GenreRow :=
  match st.genres.filter p with
  | [] => .error (.doesNotExist "Genre")
  | r :: _ => .ok r

def object_handling_artist (st : Store) (p : ArtistRow → Bool) : Except DbError ArtistRow :=
  match st.artists.filter p with
  | [] => .error (.doesNotExist "Artist")
  | r :: _ => .ok r

def object_handling_song (st : Store) (p : SongRow → Bool) : Except DbError SongRow :=
  match st.songs.filter p with
  | [] => .error (.doesNotExist "Song")
  | r :: _ => .ok r

/-- The `name__iexact` lookup used in every `obj_params` of `services.py`. -/
def name_iexact (query stored : String) : Bool := lower stored == lower query

/-! ## Reconciliation engine (`services.py` get_or_create_*) -/

/-- `SpotifyService.get_or_create_genres` (lines 54-72): get-or-create by
exact name; on `IntegrityError` fall back to `object_handling` with
`name__iexact`. -/
def get_or_create_genres (st : Store) (name : String) :
    Except DbError (Store × GenreRow) :=
  match st.genreGetOrCreate name with
  | .ok (st', g, _) => .ok (st', g)
  | .error .integrityError =>
      match object_handling_genre st (fun r => name_iexact name r.name) with
      | .ok r => .ok (st, r)
      | .error e => .error e
  | .error e => .error e

/-- `SpotifyService.get_or_create_artist` (lines 74-104): get-or-create by
`(name, artist_id)`; on creation add the genre links and save; on
`IntegrityError` fall back to `object_handling` with `name__iexact`.
Genre objects are identified by their ids. -/
def get_or_create_artist (st : Store) (name artist_id : String) (genres : List Nat) :
    Except DbError (Store × ArtistRow) :=
  match st.artistGetOrCreate name artist_id with
  | .ok (st', a, created) =>
      if created then
        let a' : ArtistRow := { a with genres := m2mAdd a.genres genres }
        .ok (st'.saveArtist a', a')
      else .ok (st', a)
  | .error .integrityError =>
      match object_handling_artist st (fun r => name_iexact name r.name) with
      | .ok r => .ok (st, r)
      | .error e => .error e
  | .error e => .error e

/-- Lines 127-128 and 172-173 of `services.py`:
`if len(release_date) != 10: release_date = release_date + "-01-01"`. -/
def normalize_release_date (release_date : String) : String :=
  if release_date.length != 10 then release_date ++ "-01-01" else release_date

/-- `object_handling(Album, {"name__iexact": name, "artists": artists})` as
invoked by the exception handlers of `get_or_create_album` (services.py
lines 140-149).  The `artists` value there is the already-resolved list/set
of Artist rows — a collection, not a single related instance — and Django's
related `exact` lookup prepares it with the target primary-key field's
`get_prep_value`, which raises `ValidationError` for a collection.  The
queryset `Album.objects.filter(...)` is therefore never constructed, so the
exists/first logic of `object_handling` (and its `DoesNotExist`) is
unreachable on this path, whatever the store contains and whatever name or
artists are passed. -/
def object_handling_album_fallback (_st : Store) (_name : String) (_artists : List Nat) :
    Except DbError AlbumRow :=
  .error .validationError

/-- `SpotifyService.get_or_create_album` (lines 106-149): normalize the
release date, get-or-create by `(name, release_date, album_type, album_id)`;
on creation add the artist links and save; on `IntegrityError` or
`MultipleObjectsReturned` invoke `object_handling` with
`{"name__iexact": name, "artists": artists}` — whose queryset construction
itself raises `ValidationError`, see `object_handling_album_fallback`.
Artist objects are identified by their ids. -/
def get_or_create_album (st : Store) (name release_date album_type : String)
    (artists : List Nat) (album_id : String) : Except DbError (Store × AlbumRow) :=
  let release_date := normalize_release_date release_date
  match st.albumGetOrCreate name release_date album_type album_id with
  | .ok (st', b, created) =>
      if created then
        let b' : AlbumRow := { b with artists := m2mAdd b.artists artists }
        .ok (st'.saveAlbum b', b')
      else .ok (st', b)
  | .error .integrityError =>
      match object_handling_album_fallback st name artists with
      | .ok r => .ok (st, r)
      | .error e => .error e
  | .error .multipleObjectsReturned =>
      match object_handling_album_fallback st name artists with
      | .ok r => .ok (st, r)
      | .error e => .error e
  | .error e => .error e

/-- The fallback queryset filter of `get_or_create_song`:
`{"name__iexact": name, "album": album}`. -/
def songFallback (name : String) (albumRef : Nat) (r : SongRow) : Bool :=
  name_iexact name r.name && r.albumRef == albumRef

/-- `SpotifyService.get_or_create_song` (lines 151-194): normalize the release
date, get-or-create by `(name, album, release_date, popularity)`; on creation
add the artist links and save; on `IntegrityError` or
`MultipleObjectsReturned` fall back to `object_handling` with
`{"name__iexact": name, "album": album}`. -/
def get_or_create_song (st : Store) (name : String) (album : AlbumRow)
    (release_date : String) (popularity : Int) (artists : List Nat) :
    Except DbError (Store × SongRow) :=
  let release_date := normalize_release_date release_date
  match st.songGetOrCreate name album.bid release_date popularity with
  | .ok (st', s, created) =>
      if created then
        let s' : SongRow := { s with artists := m2mAdd s.artists artists }
        .ok (st'.saveSong s', s')
      else .ok (st', s)
  | .error .integrityError =>
      match object_handling_song st (songFallback name album.bid) with
      | .ok r => .ok (st, r)
      | .error e => .error e
  | .error .multipleObjectsReturned =>
      match object_handling_song st (songFallback name album.bid) with
      | .ok r => .ok (st, r)
      | .error e => .error e
  | .error e => .error e

/-! ## Catalog client boundary

Raw Spotify search results, restricted to the fields `services.py` reads.
The service code catches every client exception and treats a missing or empty
`items` list as "no results", returning early either way, so a failed call is
modelled as an empty candidate list. -/

/-- An artist candidate: `{"name": ..., "id": ..., "genres": [...]}`. -/
structure CatArtist where
  name : String
  id : String
  genres : List String
  deriving Repr, DecidableEq

/-- An album candidate: `{"name": ..., "id": ..., "album_type": ...,
"release_date": ..., "artists": [...]}`. -/
structure CatAlbum where
  name : String
  id : String
  album_type : String
  release_date : String
  artists : List CatArtist
  deriving Repr, DecidableEq

/-- The catalog client: `client.search(type="artist")`,
`client.search(type="album")` (keyed by the composed query string), and
`client.artist_albums` (keyed by the artist's external id). -/
structure Catalog where
  searchArtist : String → List CatArtist
  searchAlbum : String → List CatAlbum
  artistAlbums : String → List CatAlbum

/-! ## Ingestion orchestrator (`services.py` search_*) -/

/-- The genre loop of `search_artist` (lines 225-231): for each genre name
that is non-empty and not the placeholder `"-"`, get-or-create the genre and
collect it into the `genres` set (modelled as a duplicate-free id list). -/
def buildGenres (st : Store) (names : List String) (acc : List Nat) :
    Except DbError (Store × List Nat) :=
  match names with
  | [] => .ok (st, acc)
  | g :: rest =>
      if g != "" && g != "-" then
        match get_or_create_genres st g with
        | .ok (st', gr) =>
            buildGenres st' rest (if acc.contains gr.gid then acc else acc ++ [gr.gid])
        | .error e => .error e
      else buildGenres st rest acc

/-- `SpotifyService.search_artist` (lines 196-238): short-circuit on an
exact-name existence probe (`Artist.objects.filter(name=artist)`), query the
catalog, take the first candidate whose name matches case-insensitively,
resolve its genres, then get-or-create the artist under the candidate's
name and external id. -/
def search_artist (cat : Catalog) (st : Store) (artist : String) :
    Except DbError Store :=
  if st.artists.any (fun r => r.name == artist) then .ok st
  else
    match (cat.searchArtist artist).find? (fun a => lower artist == lower a.name) with
    | none => .ok st
    | some a =>
        match buildGenres st a.genres [] with
        | .ok (st1, gids) =>
            match get_or_create_artist st1 a.name a.id gids with
            | .ok (st2, _) => .ok st2
            | .error e => .error e
        | .error e => .error e

/-- The album-artist loop of `search_artist_and_album` (lines 270-279): for
each artist summary of the matched album candidate, run `search_artist` and
then fetch the row through `object_handling` with `name__iexact` (which
raises `DoesNotExist` when the artist could not be resolved), accumulating
the `album_artists` set. -/
def resolveAlbumArtists (cat : Catalog) (st : Store) (cands : List CatArtist)
    (acc : List Nat) : Except DbError (Store × List Nat) :=
  match cands with
  | [] => .ok (st, acc)
  | aa :: rest =>
      match search_artist cat st aa.name with
      | .ok st1 =>
          match object_handling_artist st1 (fun r => name_iexact aa.name r.name) with
          | .ok a =>
              resolveAlbumArtists cat st1 rest
                (if acc.contains a.aid then acc else acc ++ [a.aid])
          | .error e => .error e
      | .error e => .error e

/-- `SpotifyService.search_artist_and_album` (lines 240-287): short-circuit on
an exact-name album existence probe, query the catalog with
`f"{artist} {album_name}"`, take the first candidate whose name matches
case-insensitively, resolve its artists, then get-or-create the album. -/
def search_artist_and_album (cat : Catalog) (st : Store) (artist album_name : String) :
    Except DbError Store :=
  if st.albums.any (fun r => r.name == album_name) then .ok st
  else
    match (cat.searchAlbum (artist ++ " " ++ album_name)).find?
        (fun al => lower album_name == lower al.name) with
    | none => .ok st
    | some al =>
        match resolveAlbumArtists cat st al.artists [] with
        | .ok (st1, aids) =>
            match get_or_create_album st1 al.name al.release_date al.album_type aids al.id with
            | .ok (st2, _) => .ok st2
            | .error e => .error e
        | .error e => .error e

/-- The inner artist loop of `search_all_albums_by_artist` (lines 380-394):
for each artist summary of a listed album, run `search_artist`, fetch the row
through `object_handling` (the accumulated `album_artists` set of the source
is never consumed, but the lookup's possible `DoesNotExist` is an effect),
then resolve the album via `search_artist_and_album`. -/
def discographyArtistLoop (cat : Catalog) (st : Store) (albumName : String)
    (cands : List CatArtist) : Except DbError Store :=
  match cands with
  | [] => .ok st
  | a :: rest =>
      match search_artist cat st a.name with
      | .ok st1 =>
          match object_handling_artist st1 (fun r => name_iexact a.name r.name) with
          | .ok _ =>
              match search_artist_and_album cat st1 a.name albumName with
              | .ok st2 => discographyArtistLoop cat st2 albumName rest
              | .error e => .error e
          | .error e => .error e
      | .error e => .error e

/-- The album loop of `search_all_albums_by_artist` (lines 379-394). -/
def discographyAlbumLoop (cat : Catalog) (st : Store) (albums : List CatAlbum) :
    Except DbError Store :=
  match albums with
  | [] => .ok st
  | al :: rest =>
      match discographyArtistLoop cat st al.name al.artists with
      | .ok st1 => discographyAlbumLoop cat st1 rest
      | .error e => .error e

/-- `SpotifyService.search_all_albums_by_artist` (lines 351-394): resolve the
main artist, fetch it through `object_handling` with `name__iexact`, list the
catalog's albums for its external id, and process each listed album. -/
def search_all_albums_by_artist (cat : Catalog) (st : Store) (artist : String) :
    Except DbError Store :=
  match search_artist cat st artist with
  | .ok st1 =>
      match object_handling_artist st1 (fun r => name_iexact artist r.name) with
      | .ok main => discographyAlbumLoop cat st1 (cat.artistAlbums main.artist_id)
      | .error e => .error e
  | .error e => .error e

/-! ## Derived predicates used by the theorems -/

/-- The two store exceptions that the album/song get-or-create wrappers catch
(`IntegrityError`, `MultipleObjectsReturned`). -/
def isConflict : DbError → Bool
  | .integrityError => true
  | .multipleObjectsReturned => true
  | .doesNotExist _ => false
  | .validationError => false

/-- Genre names are pairwise distinct in the store (the `unique=True`
constraint on `Genre.name`, which every store reachable by the service code
satisfies). -/
def nodupGenreNames (st : Store) : Prop := (st.genres.map (fun r => r.name)).Nodup

/-- A genre row with exactly this name exists. -/
def genreHas (st : Store) (g : String) : Bool := st.genres.any (fun r => r.name == g)

/-- No two album rows agree on the pair `(name, album_id)` — the
`unique_together` constraint declared on the `Album` model. -/
def albumPairUnique (st : Store) : Prop :=
  ∀ r1 ∈ st.albums, ∀ r2 ∈ st.albums, r1.name = r2.name → r1.album_id = r2.album_id → r1 = r2

/-! ## Helper lemmas -/

theorem filter_name_nodup (l : List GenreRow) (g : String)
    (hnd : (l.map (fun r => r.name)).Nodup) :
    ∀ x ∈ l, x.name = g → l.filter (fun r => r.name == g) = [x] := by
  induction l with
  | nil => intro x hx; exact absurd hx (List.not_mem_nil x)
  | cons a t ih =>
      intro x hx hxg
      simp only [List.map_cons, List.nodup_cons] at hnd
      rcases List.mem_cons.mp hx with rfl | hxt
      · rw [List.filter_cons_of_pos (by simp [hxg])]
        have ht : t.filter (fun r => r.name == g) = [] := by
          rw [List.filter_eq_nil_iff]
          intro y hy
          simp only [beq_iff_eq]
          intro hyg
          exact hnd.1 (List.mem_map.mpr ⟨y, hy, by rw [hyg, hxg]⟩)
        rw [ht]
      · have hag : (a.name == g) = false := by
          simp only [beq_eq_false_iff_ne, ne_eq]
          intro hag
          exact hnd.1 (List.mem_map.mpr ⟨x, hxt, by rw [hxg, hag]⟩)
        simp only [List.filter_cons, hag, Bool.false_eq_true, if_false]
        exact ih hnd.2 x hxt hxg

theorem genre_found (st : Store) (g : String) (hnd : nodupGenreNames st)
    (hex : genreHas st g = true) :
    ∃ r, get_or_create_genres st g = .ok (st, r) := by
  obtain ⟨x, hx, hxg⟩ := List.any_eq_true.mp hex
  have hf := filter_name_nodup st.genres g hnd x hx (beq_iff_eq.mp hxg)
  exact ⟨x, by simp [get_or_create_genres, Store.genreGetOrCreate, hf]⟩

theorem genre_new (st : Store) (g : String) (hex : genreHas st g = false) :
    get_or_create_genres st g =
      .ok ({ st with
             genres := st.genres ++ [⟨st.nextId, g⟩]
             nextId := st.nextId + 1 },
           ⟨st.nextId, g⟩) := by
  have hex' : st.genres.any (fun r => r.name == g) = false := hex
  have hf : st.genres.filter (fun r => r.name == g) = [] := by
    rw [List.filter_eq_nil_iff]
    intro y hy hyg
    have h1 : st.genres.any (fun r => r.name == g) = true := List.any_eq_true.mpr ⟨y, hy, hyg⟩
    rw [h1] at hex'
    cases hex'
  simp [get_or_create_genres, Store.genreGetOrCreate, hf, hex']

theorem buildGenres_total : ∀ (names : List String) (st : Store) (acc : List Nat),
    nodupGenreNames st →
    ∃ st' gids, buildGenres st names acc = .ok (st', gids) ∧
      nodupGenreNames st' ∧
      st'.artists = st.artists ∧ st'.albums = st.albums ∧ st'.songs = st.songs ∧
      (∀ g, genreHas st g = true → genreHas st' g = true) ∧
      (∀ g ∈ names, (g != "" && g != "-") = true → genreHas st' g = true) := by
  intro names
  induction names with
  | nil =>
      intro st acc hnd
      exact ⟨st, acc, rfl, hnd, rfl, rfl, rfl, fun g h => h, by simp⟩
  | cons g rest ih =>
      intro st acc hnd
      by_cases hfg : (g != "" && g != "-") = true
      · by_cases hex : genreHas st g = true
        · obtain ⟨r, hr⟩ := genre_found st g hnd hex
          obtain ⟨st', gids, hb, hnd', hart, halb, hsong, hmono, hens⟩ := ih st
            (if acc.contains r.gid then acc else acc ++ [r.gid]) hnd
          refine ⟨st', gids, ?_, hnd', hart, halb, hsong, hmono, ?_⟩
          · rw [buildGenres, if_pos hfg, hr]
            exact hb
          · intro g' hg' hfg'
            rcases List.mem_cons.mp hg' with rfl | hg't
            · exact hmono g' hex
            · exact hens g' hg't hfg'
        · have hexf : genreHas st g = false := Bool.eq_false_iff.mpr hex
          have hr := genre_new st g hexf
          set st2 : Store :=
            { st with
              genres := st.genres ++ [⟨st.nextId, g⟩]
              nextId := st.nextId + 1 } with hst2
          have hnd2 : nodupGenreNames st2 := by
            unfold nodupGenreNames at hnd ⊢
            rw [hst2]
            simp only [List.map_append, List.map_cons, List.map_nil]
            rw [List.nodup_append]
            refine ⟨hnd, List.nodup_singleton g, ?_⟩
            intro b hb
            simp only [List.mem_singleton]
            intro hbg
            obtain ⟨y, hy, hyn⟩ := List.mem_map.mp hb
            have hgt : genreHas st g = true :=
              List.any_eq_true.mpr ⟨y, hy, beq_iff_eq.mpr (by rw [hyn, hbg])⟩
            rw [hgt] at hexf
            cases hexf
          obtain ⟨st', gids, hb, hnd', hart, halb, hsong, hmono, hens⟩ := ih st2
            (if acc.contains st.nextId then acc else acc ++ [st.nextId]) hnd2
          have hmono2 : ∀ g', genreHas st g' = true → genreHas st2 g' = true := by
            intro g' h
            unfold genreHas at h ⊢
            rw [hst2]
            simp only [List.any_append, h, Bool.true_or]
          have hg2 : genreHas st2 g = true := by
            unfold genreHas
            rw [hst2]
            simp
          refine ⟨st', gids, ?_, hnd', ?_, ?_, ?_, fun g' h => hmono g' (hmono2 g' h), ?_⟩
          · rw [buildGenres, if_pos hfg, hr]
            exact hb
          · rw [hart, hst2]
          · rw [halb, hst2]
          · rw [hsong, hst2]
          · intro g' hg' hfg'
            rcases List.mem_cons.mp hg' with rfl | hg't
            · exact hmono g' hg2
            · exact hens g' hg't hfg'
      · have hfgf : (g != "" && g != "-") = false := Bool.eq_false_iff.mpr hfg
        obtain ⟨st', gids, hb, hnd', hart, halb, hsong, hmono, hens⟩ := ih st acc hnd
        refine ⟨st', gids, ?_, hnd', hart, halb, hsong, hmono, ?_⟩
        · rw [buildGenres, if_neg (by rw [hfgf]; exact Bool.false_ne_true)]
          exact hb
        · intro g' hg' hfg'
          rcases List.mem_cons.mp hg' with rfl | hg't
          · rw [hfg'] at hfgf; cases hfgf
          · exact hens g' hg't hfg'

theorem buildGenres_frozen : ∀ (names : List String) (st : Store) (acc : List Nat),
    nodupGenreNames st →
    (∀ g ∈ names, (g != "" && g != "-") = true → genreHas st g = true) →
    ∃ gids, buildGenres st names acc = .ok (st, gids) := by
  intro names
  induction names with
  | nil => intro st acc _ _; exact ⟨acc, rfl⟩
  | cons g rest ih =>
      intro st acc hnd hall
      by_cases hfg : (g != "" && g != "-") = true
      · have hex : genreHas st g = true := hall g (List.mem_cons_self g rest) hfg
        obtain ⟨r, hr⟩ := genre_found st g hnd hex
        obtain ⟨gids, hb⟩ := ih st (if acc.contains r.gid then acc else acc ++ [r.gid]) hnd
          (fun g' hg' => hall g' (List.mem_cons_of_mem g hg'))
        refine ⟨gids, ?_⟩
        rw [buildGenres, if_pos hfg, hr]
        exact hb
      · obtain ⟨gids, hb⟩ := ih st acc hnd (fun g' hg' => hall g' (List.mem_cons_of_mem g hg'))
        refine ⟨gids, ?_⟩
        have hfgf : (g != "" && g != "-") = false := Bool.eq_false_iff.mpr hfg
        rw [buildGenres, if_neg (by rw [hfgf]; exact Bool.false_ne_true)]
        exact hb

theorem artist_create_eq (st : Store) (n aid : String) (gids : List Nat)
    (hA : st.artists = []) :
    get_or_create_artist st n aid gids =
      .ok ({ st with
             artists := [⟨st.nextId, n, aid, m2mAdd [] gids⟩]
             nextId := st.nextId + 1 },
           ⟨st.nextId, n, aid, m2mAdd [] gids⟩) := by
  simp [get_or_create_artist, Store.artistGetOrCreate, Store.saveArtist, hA]

theorem artist_found_single (st : Store) (a : ArtistRow) (gids : List Nat)
    (hA : st.artists = [a]) :
    get_or_create_artist st a.name a.artist_id gids = .ok (st, a) := by
  simp [get_or_create_artist, Store.artistGetOrCreate, hA]

theorem album_create_eq (st : Store) (n d ty aid : String) (arts : List Nat)
    (hA : st.albums = [])
    (hv : is_valid_date (normalize_release_date d) = true) :
    get_or_create_album st n d ty arts aid =
      .ok ({ st with
             albums := [⟨st.nextId, n, normalize_release_date d, ty, aid, m2mAdd [] arts⟩]
             nextId := st.nextId + 1 },
           ⟨st.nextId, n, normalize_release_date d, ty, aid, m2mAdd [] arts⟩) := by
  simp [get_or_create_album, Store.albumGetOrCreate, Store.saveAlbum, hA, hv]

theorem song_create_eq (st : Store) (n : String) (alb : AlbumRow) (d : String)
    (pop : Int) (arts : List Nat) (hS : st.songs = [])
    (hv : is_valid_date (normalize_release_date d) = true) :
    get_or_create_song st n alb d pop arts =
      .ok ({ st with
             songs := [⟨st.nextId, n, alb.bid, normalize_release_date d, pop, m2mAdd [] arts⟩]
             nextId := st.nextId + 1 },
           ⟨st.nextId, n, alb.bid, normalize_release_date d, pop, m2mAdd [] arts⟩) := by
  simp [get_or_create_song, Store.songGetOrCreate, Store.saveSong, hS, hv]

/-- The remaining branch lemma for C4: on an insert (creation) the store pair
uniqueness is preserved by the subsequent `album.save()`. -/
theorem saveAlbum_pairUnique (st : Store) (b b' : AlbumRow)
    (h : albumPairUnique st) (hb : b ∈ st.albums)
    (hn : b'.name = b.name) (hid : b'.album_id = b.album_id) (hbid : b'.bid = b.bid) :
    albumPairUnique (st.saveAlbum b') := by
  intro r1 h1 r2 h2 hname hids
  unfold Store.saveAlbum at h1 h2
  simp only [List.mem_map] at h1 h2
  obtain ⟨x1, hx1, hfx1⟩ := h1
  obtain ⟨x2, hx2, hfx2⟩ := h2
  by_cases c1 : (x1.bid == b'.bid) = true
  · rw [if_pos c1] at hfx1
    by_cases c2 : (x2.bid == b'.bid) = true
    · rw [if_pos c2] at hfx2
      rw [← hfx1, ← hfx2]
    · rw [if_neg (by rw [Bool.not_eq_true]; exact Bool.eq_false_iff.mpr c2)] at hfx2
      exfalso
      have hx2b : x2 = b := by
        apply h x2 hx2 b hb
        · rw [hfx2, ← hname, ← hfx1, hn]
        · rw [hfx2, ← hids, ← hfx1, hid]
      apply c2
      rw [hx2b, ← hbid]
      exact beq_self_eq_true _
  · rw [if_neg (by rw [Bool.not_eq_true]; exact Bool.eq_false_iff.mpr c1)] at hfx1
    by_cases c2 : (x2.bid == b'.bid) = true
    · rw [if_pos c2] at hfx2
      exfalso
      have hx1b : x1 = b := by
        apply h x1 hx1 b hb
        · rw [hfx1, hname, ← hfx2, hn]
        · rw [hfx1, hids, ← hfx2, hid]
      apply c1
      rw [hx1b, ← hbid]
      exact beq_self_eq_true _
    · rw [if_neg (by rw [Bool.not_eq_true]; exact Bool.eq_false_iff.mpr c2)] at hfx2
      rw [← hfx1, ← hfx2]
      apply h x1 hx1 x2 hx2
      · rw [hfx1, hfx2]; exact hname
      · rw [hfx1, hfx2]; exact hids

/-- Case analysis of the embedded `Album.objects.get_or_create`: a successful
call either found an existing row and left the store untouched, or inserted a
fresh row after checking the `(name, album_id)` uniqueness constraint. -/
theorem albumGetOrCreate_cases (st : Store) (n rd ty aid : String) (st' : Store)
    (b : AlbumRow) (cr : Bool)
    (hg : st.albumGetOrCreate n rd ty aid = .ok (st', b, cr)) :
    (st' = st ∧ cr = false ∧ b ∈ st.albums) ∨
    (cr = true ∧ b = ⟨st.nextId, n, rd, ty, aid, []⟩ ∧
     st' = { st with albums := st.albums ++ [b], nextId := st.nextId + 1 } ∧
     st.albums.any (fun r => r.name == n && r.album_id == aid) = false) := by
  unfold Store.albumGetOrCreate at hg
  split at hg
  · cases hg
  · split at hg
    · split at hg
      · cases hg
      · right
        simp only [Except.ok.injEq, Prod.mk.injEq] at hg
        obtain ⟨h1, h2, h3⟩ := hg
        rename_i hany
        refine ⟨h3.symm, h2.symm, ?_, by rw [Bool.not_eq_true] at hany; exact hany⟩
        rw [← h1, ← h2]
    · left
      simp only [Except.ok.injEq, Prod.mk.injEq] at hg
      obtain ⟨h1, h2, h3⟩ := hg
      rename_i x r heq
      refine ⟨h1.symm, h3.symm, ?_⟩
      rw [← h2]
      have hmem : r ∈ st.albums.filter (fun q =>
          q.name == n && q.release_date == rd && q.album_type == ty && q.album_id == aid) := by
        rw [heq]
        exact List.mem_singleton_self r
      exact List.mem_of_mem_filter hmem
    · cases hg

/-- Two calls of `search_artist` whose query strings agree up to letter case
and receive the same catalog response reach a common store after the first
call, and the second call leaves that store completely unchanged.  Starting
from an artist-free store, the result holds at most one artist row — the
first case-insensitively matching candidate's row, when one exists. -/
theorem search_artist_stable (cat : Catalog) (st0 : Store) (q1 q2 : String)
    (hq : lower q1 = lower q2)
    (hc : cat.searchArtist q1 = cat.searchArtist q2)
    (hA : st0.artists = [])
    (hG : nodupGenreNames st0) :
    ∃ st1, search_artist cat st0 q1 = .ok st1 ∧
      search_artist cat st1 q2 = .ok st1 ∧
      (match (cat.searchArtist q1).find? (fun a => lower q1 == lower a.name) with
       | none => st1 = st0
       | some c => ∃ r, st1.artists = [r] ∧ r.name = c.name) := by
  have hprobe1 : st0.artists.any (fun r => r.name == q1) = false := by
    rw [hA]; rfl
  have hpe : (fun (a : CatArtist) => lower q2 == lower a.name)
      = (fun (a : CatArtist) => lower q1 == lower a.name) := by
    funext a; rw [hq]
  cases hfind : (cat.searchArtist q1).find? (fun a => lower q1 == lower a.name) with
  | none =>
      have hfind2 : (cat.searchArtist q2).find? (fun a => lower q2 == lower a.name) = none := by
        rw [← hc, hpe]; exact hfind
      have hprobe2 : st0.artists.any (fun r => r.name == q2) = false := by
        rw [hA]; rfl
      refine ⟨st0, ?_, ?_, by simp only [hfind]⟩
      · simp [search_artist, hprobe1, hfind]
      · simp [search_artist, hprobe2, hfind2]
  | some c =>
      obtain ⟨stg, gids, hb, hgnd, hart, halb, hsong, hmono, hens⟩ :=
        buildGenres_total c.genres st0 [] hG
      have hAg : stg.artists = [] := by rw [hart, hA]
      have hcr := artist_create_eq stg c.name c.id gids hAg
      set a' : ArtistRow := ⟨stg.nextId, c.name, c.id, m2mAdd [] gids⟩ with ha'
      set st1 : Store :=
        { stg with
          artists := [a']
          nextId := stg.nextId + 1 } with hst1
      have h1 : search_artist cat st0 q1 = .ok st1 := by
        simp [search_artist, hprobe1, hfind, hb, hcr]
      by_cases hp : st1.artists.any (fun r => r.name == q2) = true
      · refine ⟨st1, h1, ?_, ?_⟩
        · simp [search_artist, hp]
        · simp only [hfind]
          exact ⟨a', rfl, rfl⟩
      · have hp' : st1.artists.any (fun r => r.name == q2) = false := Bool.eq_false_iff.mpr hp
        have hfind2 : (cat.searchArtist q2).find? (fun a => lower q2 == lower a.name) = some c := by
          rw [← hc, hpe]; exact hfind
        have hfroz : ∀ g ∈ c.genres, (g != "" && g != "-") = true → genreHas st1 g = true := by
          intro g hg hfg
          exact hens g hg hfg
        have hnd1 : nodupGenreNames st1 := hgnd
        obtain ⟨gids2, hb2⟩ := buildGenres_frozen c.genres st1 [] hnd1 hfroz
        have hfnd : get_or_create_artist st1 c.name c.id gids2 = .ok (st1, a') :=
          artist_found_single st1 a' gids2 rfl
        have h2 : search_artist cat st1 q2 = .ok st1 := by
          simp [search_artist, hp', hfind2, hb2, hfnd]
        refine ⟨st1, h1, h2, ?_⟩
        simp only [hfind]
        exact ⟨a', rfl, rfl⟩

/-! ## Concrete fixtures used by witnesses and counterexamples -/

/-- A catalog returning the canonical candidate `The Beatles` for every
artist query. -/
def beatlesCat : Catalog :=
  ⟨fun _ => [⟨"The Beatles", "tb1", ["rock"]⟩], fun _ => [], fun _ => []⟩

/-- A catalog echoing the query string back as the single artist candidate,
with an external id derived from the query: two queries differing only in
case receive candidates with different stored names and external ids. -/
def echoCat : Catalog :=
  ⟨fun q => [⟨q, "id-" ++ q, []⟩], fun _ => [], fun _ => []⟩

/-- A catalog whose album search returns `Abbey Road` by the artist `Nobody`,
while the artist search returns zero candidates for every query. -/
def softCat : Catalog :=
  ⟨fun _ => [],
   fun _ => [⟨"Abbey Road", "b9", "album", "2019", [⟨"Nobody", "n1", []⟩]⟩],
   fun _ => []⟩

/-- The two-album discography stub of the C8 scenario. -/
def rhAlbums : List CatAlbum :=
  [⟨"Album One", "b1", "album", "2020-01-01", [⟨"Radiohead", "r1", []⟩]⟩,
   ⟨"Album Two", "b2", "album", "2020-01-01", [⟨"Radiohead", "r1", []⟩]⟩]

/-- A stub catalog for the C8 scenario: one artist `Radiohead` and two
albums, each naming `Radiohead` as its single artist. -/
def rhCat : Catalog :=
  ⟨fun q => if lower q == "radiohead" then [⟨"Radiohead", "r1", []⟩] else [],
   fun _ => rhAlbums,
   fun aid => if aid == "r1" then rhAlbums else []⟩

/-- A stored album row used by the concrete song-write fixtures. -/
def albumRow0 : AlbumRow := ⟨0, "A", "2020-01-01", "album", "k", []⟩

/-- A store holding exactly `albumRow0`. -/
def storeWithAlbum : Store := ⟨[], [], [albumRow0], [], 1⟩

/-- A store holding one album and one song, shaped so that a further album or
song create collides with the `unique_together` pairs. -/
def conflictStore : Store :=
  ⟨[], [], [⟨0, "X", "2020-01-01", "album", "k", []⟩],
   [⟨1, "S", 0, "2020-01-01", 5, []⟩], 2⟩

/-- The album row of `conflictStore`. -/
def conflictAlbum : AlbumRow := ⟨0, "X", "2020-01-01", "album", "k", []⟩

/-- A store with one artist, one album and one song, used to witness the
found-row frame property. -/
def frameStore : Store :=
  ⟨[], [⟨0, "A", "x", []⟩], [⟨1, "B", "2020-01-01", "album", "y", []⟩],
   [⟨2, "S", 1, "2020-01-01", 5, []⟩], 3⟩

/-- The album row of `frameStore`. -/
def frameAlbum : AlbumRow := ⟨1, "B", "2020-01-01", "album", "y", []⟩

/-! ## Claims -/

/-- Claim C1 (amended).  The existence probe of `search_artist` is the
case-sensitive `Artist.objects.filter(name=artist)`, not a case-insensitive
one; resolving a name twice under different letter casings nevertheless
yields one canonical Artist row and never two, provided the catalog returns
the same candidate list for both query spellings: the second call returns
the store of the first call unchanged, and that store holds at most one
artist row. -/
theorem C1_two_casings_single_row (cat : Catalog) (st0 : Store) (q1 q2 : String)
    (hq : lower q1 = lower q2) (hc : cat.searchArtist q1 = cat.searchArtist q2)
    (hA : st0.artists = []) (hG : nodupGenreNames st0) :
    ∃ st1, search_artist cat st0 q1 = .ok st1 ∧
      search_artist cat st1 q2 = .ok st1 ∧ st1.artists.length ≤ 1 := by
  obtain ⟨st1, h1, h2, h3⟩ := search_artist_stable cat st0 q1 q2 hq hc hA hG
  refine ⟨st1, h1, h2, ?_⟩
  cases hfind : (cat.searchArtist q1).find? (fun a => lower q1 == lower a.name) with
  | none =>
      simp only [hfind] at h3
      rw [h3, hA]
      exact Nat.zero_le 1
  | some c =>
      simp only [hfind] at h3
      obtain ⟨r, hr, _⟩ := h3
      rw [hr]
      exact Nat.le_refl 1

/-- Claim C1, witness: the amended theorem applied to the catalog that
returns the canonical candidate `The Beatles`, with the two query spellings
`the beatles` and `The Beatles`. -/
theorem C1_witness :
    ∃ st1, search_artist beatlesCat emptyStore "the beatles" = .ok st1 ∧
      search_artist beatlesCat st1 "The Beatles" = .ok st1 ∧
      st1.artists.length ≤ 1 :=
  C1_two_casings_single_row beatlesCat emptyStore "the beatles" "The Beatles"
    (by decide) rfl rfl (by simp [nodupGenreNames, emptyStore])

/-- Claim C1, counterexample to the claim as stated: against a catalog whose
candidate for a query echoes the query's own casing and derives the external
id from it, resolving `The Beatles` and then `the beatles` creates two Artist
rows; moreover the exact-name existence probe of the second call misses the
stored row even though a case-insensitive probe would have matched it. -/
theorem C1_counterexample :
    (match search_artist echoCat emptyStore "The Beatles" with
     | .ok st1 =>
         st1.artists.any (fun r => r.name == "the beatles") == false &&
         st1.artists.any (fun r => name_iexact "the beatles" r.name) &&
         (match search_artist echoCat st1 "the beatles" with
          | .ok st2 => st2.artists.length == 2
          | .error _ => false)
     | .error _ => false) = true := by decide

/-- Claim C2 (amended).  When the catalog returns zero matching candidates
for a nested artist name of an album candidate, the enclosing album is NOT
created: `search_artist` returns without creating the artist, and the
subsequent `object_handling` lookup raises `Artist.DoesNotExist`, which
propagates and aborts `search_artist_and_album` before the album write. -/
theorem C2_unresolved_artist_aborts_album (cat : Catalog) (st : Store)
    (artist album_name : String) (al : CatAlbum) (aa : CatArtist)
    (hprobe : st.albums.any (fun r => r.name == album_name) = false)
    (hfind : (cat.searchAlbum (artist ++ " " ++ album_name)).find?
        (fun x => lower album_name == lower x.name) = some al)
    (hart : al.artists = [aa])
    (hcat : (cat.searchArtist aa.name).find? (fun a => lower aa.name == lower a.name) = none)
    (hno : st.artists.filter (fun r => name_iexact aa.name r.name) = []) :
    search_artist_and_album cat st artist album_name = .error (.doesNotExist "Artist") := by
  have hprobeA : st.artists.any (fun r => r.name == aa.name) = false := by
    by_contra hcontra
    rw [Bool.not_eq_false, List.any_eq_true] at hcontra
    obtain ⟨x, hx, hxe⟩ := hcontra
    have hxi : name_iexact aa.name x.name = true := by
      rw [name_iexact, beq_iff_eq.mp hxe]
      exact beq_self_eq_true _
    have hxmem : x ∈ st.artists.filter (fun r => name_iexact aa.name r.name) :=
      List.mem_filter.mpr ⟨hx, hxi⟩
    rw [hno] at hxmem
    exact absurd hxmem (List.not_mem_nil x)
  have hsa : search_artist cat st aa.name = .ok st := by
    simp [search_artist, hprobeA, hcat]
  have hoh : object_handling_artist st (fun r => name_iexact aa.name r.name) =
      .error (.doesNotExist "Artist") := by
    simp [object_handling_artist, hno]
  simp [search_artist_and_album, hprobe, hfind, hart, resolveAlbumArtists, hsa, hoh]

/-- Claim C2, witness: the amended theorem applied to a catalog that offers
the album `Abbey Road` with sole artist `Nobody` while returning zero artist
candidates. -/
theorem C2_witness :
    search_artist_and_album softCat emptyStore "Y" "Abbey Road" =
      .error (.doesNotExist "Artist") :=
  C2_unresolved_artist_aborts_album softCat emptyStore "Y" "Abbey Road"
    ⟨"Abbey Road", "b9", "album", "2019", [⟨"Nobody", "n1", []⟩]⟩
    ⟨"Nobody", "n1", []⟩ rfl rfl rfl rfl rfl

/-- Claim C2, counterexample to the claim as stated: with the catalog that
cannot resolve the artist `Nobody`, resolving the album `Abbey Road` raises
`Artist.DoesNotExist` instead of creating the album without the artist — no
store is returned at all, so no Album row is created. -/
theorem C2_counterexample :
    (match search_artist_and_album softCat emptyStore "X" "Abbey Road" with
     | .ok _ => false
     | .error e => e == .doesNotExist "Artist") = true := by decide

/-- Claim C3 (code bug).  `get_or_create_song` accepts and stores a
popularity of 101: the row is written, its `popularity` field is 101, and no
validation error is raised — even though the validators declared on
`Song.popularity` in `models.py` classify 101 as out of range. -/
theorem C3_popularity_out_of_range_stored :
    (match get_or_create_song storeWithAlbum "Track" albumRow0 "2020-01-01" 101 [] with
     | .ok (st', s) =>
         s.popularity == 101 && st'.songs.length == 1 && !popularity_range_ok 101
     | .error _ => false) = true := by decide

/-- Claim C4 (amended).  Stored Album rows are unique on the pair
`(name, album_id)` — the constraint actually declared on the model — and
`get_or_create_album` preserves that invariant; a fortiori no two rows agree
on the triple `(name, album_type, album_id)`.  The triple is not the
duplicate-decision key: the get-or-create looks rows up by
`(name, release_date, album_type, album_id)` and the insert conflicts on the
pair alone. -/
theorem C4_album_pair_unique_preserved (st : Store) (n rd ty aid : String)
    (arts : List Nat) (st' : Store) (b : AlbumRow)
    (h : albumPairUnique st)
    (hr : get_or_create_album st n rd ty arts aid = .ok (st', b)) :
    albumPairUnique st' ∧
    (∀ r1 ∈ st'.albums, ∀ r2 ∈ st'.albums,
        r1.name = r2.name → r1.album_type = r2.album_type → r1.album_id = r2.album_id →
        r1 = r2) := by
  have main : albumPairUnique st' := by
    simp only [get_or_create_album] at hr
    cases hg : st.albumGetOrCreate n (normalize_release_date rd) ty aid with
    | ok res =>
        obtain ⟨stc, row, created⟩ := res
        rw [hg] at hr
        rcases albumGetOrCreate_cases st n (normalize_release_date rd) ty aid stc row created hg
          with ⟨rfl, rfl, hmem⟩ | ⟨rfl, rfl, hstc, hnew⟩
        · simp only [Bool.false_eq_true, if_false, Except.ok.injEq, Prod.mk.injEq] at hr
          obtain ⟨rfl, rfl⟩ := hr
          exact h
        · simp only [if_true, Except.ok.injEq, Prod.mk.injEq] at hr
          obtain ⟨rfl, rfl⟩ := hr
          subst hstc
          set row : AlbumRow := ⟨st.nextId, n, normalize_release_date rd, ty, aid, []⟩ with hrow
          set stc : Store := { st with albums := st.albums ++ [row], nextId := st.nextId + 1 }
            with hstc
          have hstcU : albumPairUnique stc := by
            intro r1 h1 r2 h2 hname hids
            rw [hstc] at h1 h2
            simp only [List.mem_append, List.mem_singleton] at h1 h2
            rcases h1 with h1 | rfl
            · rcases h2 with h2 | rfl
              · exact h r1 h1 r2 h2 hname hids
              · exfalso
                have hany : st.albums.any (fun r => r.name == n && r.album_id == aid) = true := by
                  rw [List.any_eq_true]
                  refine ⟨r1, h1, ?_⟩
                  rw [Bool.and_eq_true, beq_iff_eq, beq_iff_eq]
                  exact ⟨hname, hids⟩
                rw [hany] at hnew
                cases hnew
            · rcases h2 with h2 | rfl
              · exfalso
                have hany : st.albums.any (fun r => r.name == n && r.album_id == aid) = true := by
                  rw [List.any_eq_true]
                  refine ⟨r2, h2, ?_⟩
                  rw [Bool.and_eq_true, beq_iff_eq, beq_iff_eq]
                  exact ⟨hname.symm, hids.symm⟩
                rw [hany] at hnew
                cases hnew
              · rfl
          have hrowmem : row ∈ stc.albums := by
            rw [hstc]
            exact List.mem_append_right _ (List.mem_singleton_self row)
          exact saveAlbum_pairUnique stc row _ hstcU hrowmem rfl rfl rfl
    | error e =>
        rw [hg] at hr
        cases e with
        | integrityError =>
            simp only [object_handling_album_fallback] at hr
            cases hr
        | multipleObjectsReturned =>
            simp only [object_handling_album_fallback] at hr
            cases hr
        | doesNotExist m => cases hr
        | validationError => cases hr
  refine ⟨main, ?_⟩
  intro r1 h1 r2 h2 hname hty hids
  exact main r1 h1 r2 h2 hname hids

/-- Claim C4, witness: the amended theorem applied to a fresh create on the
empty store. -/
theorem C4_witness :
    albumPairUnique ⟨[], [], [⟨0, "N", "2021-03-04", "album", "z", []⟩], [], 1⟩ ∧
    (∀ r1 ∈ (⟨[], [], [⟨0, "N", "2021-03-04", "album", "z", []⟩], [], 1⟩ : Store).albums,
     ∀ r2 ∈ (⟨[], [], [⟨0, "N", "2021-03-04", "album", "z", []⟩], [], 1⟩ : Store).albums,
        r1.name = r2.name → r1.album_type = r2.album_type → r1.album_id = r2.album_id →
        r1 = r2) :=
  C4_album_pair_unique_preserved emptyStore "N" "2021-03-04" "album" "z" []
    ⟨[], [], [⟨0, "N", "2021-03-04", "album", "z", []⟩], [], 1⟩
    ⟨0, "N", "2021-03-04", "album", "z", []⟩
    (fun r1 h1 => absurd h1 (List.not_mem_nil r1)) rfl

/-- Claim C4, counterexample to the claim as stated: an album create that
differs from the single stored row in `album_type` (so the triple
`(name, album_type, album_id)` differs and, per the claim, the create is not
a duplicate) does not create a second row — the `(name, album_id)` insert
constraint fires `IntegrityError`, and the disambiguation fallback then
fails with `ValidationError` at queryset construction, so the call raises
instead of writing a row keyed by the triple. -/
theorem C4_counterexample :
    (match get_or_create_album emptyStore "X" "2020-01-01" "album" [] "k" with
     | .ok (st1, _) =>
         st1.albums.length == 1 &&
         (match get_or_create_album st1 "X" "2020-01-01" "single" [] "k" with
          | .ok _ => false
          | .error e => e == .validationError)
     | .error _ => false) = true := by decide

/-- Claim C5 (confirmed).  Calling `search_artist` twice with the same name
against the same catalog function: when the catalog offers a candidate whose
name matches the query case-insensitively, the first call produces exactly
one Artist row and the second call returns the first call's store unchanged —
in particular it adds no new genre relationship members. -/
theorem C5_fetch_artist_idempotent (cat : Catalog) (st0 : Store) (name : String)
    (c : CatArtist)
    (hA : st0.artists = []) (hG : nodupGenreNames st0)
    (hfind : (cat.searchArtist name).find? (fun a => lower name == lower a.name) = some c) :
    ∃ st1, search_artist cat st0 name = .ok st1 ∧
      search_artist cat st1 name = .ok st1 ∧ st1.artists.length = 1 := by
  obtain ⟨st1, h1, h2, h3⟩ := search_artist_stable cat st0 name name rfl rfl hA hG
  simp only [hfind] at h3
  obtain ⟨r, hr, _⟩ := h3
  exact ⟨st1, h1, h2, by rw [hr]; rfl⟩

/-- Claim C5, witness: the theorem applied to the catalog that returns the
candidate `The Beatles` with genre `rock`. -/
theorem C5_witness :
    ∃ st1, search_artist beatlesCat emptyStore "The Beatles" = .ok st1 ∧
      search_artist beatlesCat st1 "The Beatles" = .ok st1 ∧
      st1.artists.length = 1 :=
  C5_fetch_artist_idempotent beatlesCat emptyStore "The Beatles"
    ⟨"The Beatles", "tb1", ["rock"]⟩ rfl (by simp [nodupGenreNames, emptyStore]) rfl

/-- Claim C6 (confirmed).  A year-only (4-character) release date is
right-padded with `-01-01` and a full 10-character `YYYY-MM-DD` date is left
unchanged; for a release date whose normalized form is a valid calendar date
(true of every date in the claim's scope: padded years and proper full
dates), the album and song writes store exactly the normalized value. -/
theorem C6_release_date_normalization (st : Store) (d n ty aid sn : String)
    (alb : AlbumRow) (pop : Int)
    (hA : st.albums = []) (hS : st.songs = [])
    (hv : is_valid_date (normalize_release_date d) = true) :
    (d.length = 4 → normalize_release_date d = d ++ "-01-01") ∧
    (d.length = 10 → normalize_release_date d = d) ∧
    (∃ st' b, get_or_create_album st n d ty [] aid = .ok (st', b) ∧
        b.release_date = normalize_release_date d) ∧
    (∃ st' s, get_or_create_song st sn alb d pop [] = .ok (st', s) ∧
        s.release_date = normalize_release_date d) := by
  refine ⟨?_, ?_, ?_, ?_⟩
  · intro h4
    rw [normalize_release_date, if_pos (by rw [h4]; decide)]
  · intro h10
    rw [normalize_release_date, if_neg (by rw [h10]; decide)]
  · exact ⟨_, _, album_create_eq st n d ty aid [] hA hv, rfl⟩
  · exact ⟨_, _, song_create_eq st sn alb d pop [] hS hv, rfl⟩

/-- Claim C6, witness: the theorem applied to the year-only date `1969` on
the empty store. -/
theorem C6_witness :
    (("1969" : String).length = 4 → normalize_release_date "1969" = "1969" ++ "-01-01") ∧
    (("1969" : String).length = 10 → normalize_release_date "1969" = "1969") ∧
    (∃ st' b, get_or_create_album emptyStore "A" "1969" "album" [] "k" = .ok (st', b) ∧
        b.release_date = normalize_release_date "1969") ∧
    (∃ st' s, get_or_create_song emptyStore "S" albumRow0 "1969" 5 [] = .ok (st', s) ∧
        s.release_date = normalize_release_date "1969") :=
  C6_release_date_normalization emptyStore "1969" "A" "album" "k" "S" albumRow0 5 rfl rfl
    (by decide)

/-- Claim C7 (amended).  When the song get-or-create fails with a uniqueness
(`IntegrityError`) or multiplicity (`MultipleObjectsReturned`) violation, the
engine re-queries the store with the case-insensitive-name filter plus the
resolved album context, returns the first row of that queryset, and raises
the `DoesNotExist` consistency error (never a silent `None`) when the
queryset is empty.  When the album get-or-create fails the same way,
however, the disambiguation queryset
`filter(name__iexact=..., artists=<collection>)` cannot be constructed —
Django raises `ValidationError` for the collection-valued related lookup —
so the album conflict path always fails with `ValidationError` instead of
returning a first match or raising the consistency error. -/
theorem C7_conflict_fallback_paths (st : Store) (n rd ty aid : String)
    (arts : List Nat) (alb : AlbumRow) (sn srd : String) (pop : Int)
    (sarts : List Nat) (e1 e2 : DbError)
    (h1 : st.albumGetOrCreate n (normalize_release_date rd) ty aid = .error e1)
    (h2 : isConflict e1 = true)
    (h3 : st.songGetOrCreate sn alb.bid (normalize_release_date srd) pop = .error e2)
    (h4 : isConflict e2 = true) :
    (get_or_create_album st n rd ty arts aid = .error .validationError) ∧
    (get_or_create_song st sn alb srd pop sarts =
      match st.songs.filter (songFallback sn alb.bid) with
      | [] => .error (.doesNotExist "Song")
      | r :: _ => .ok (st, r)) := by
  constructor
  · cases e1 with
    | integrityError =>
        simp [get_or_create_album, h1, object_handling_album_fallback]
    | multipleObjectsReturned =>
        simp [get_or_create_album, h1, object_handling_album_fallback]
    | doesNotExist m => simp [isConflict] at h2
    | validationError => simp [isConflict] at h2
  · cases e2 with
    | integrityError =>
        simp only [get_or_create_song, h3, object_handling_song]
        cases st.songs.filter (songFallback sn alb.bid) <;> simp
    | multipleObjectsReturned =>
        simp only [get_or_create_song, h3, object_handling_song]
        cases st.songs.filter (songFallback sn alb.bid) <;> simp
    | doesNotExist m => simp [isConflict] at h4
    | validationError => simp [isConflict] at h4

/-- Claim C7, witness: the amended theorem applied to `conflictStore`, whose
stored album and song collide on the `unique_together` pairs with creates
that differ in `album_type` (album) and `popularity` (song). -/
theorem C7_witness :
    (get_or_create_album conflictStore "X" "2020-01-01" "single" [] "k" =
      .error .validationError) ∧
    (get_or_create_song conflictStore "S" conflictAlbum "2020-01-01" 7 [] =
      match conflictStore.songs.filter (songFallback "S" conflictAlbum.bid) with
      | [] => .error (.doesNotExist "Song")
      | r :: _ => .ok (conflictStore, r)) :=
  C7_conflict_fallback_paths conflictStore "X" "2020-01-01" "single" "k" []
    conflictAlbum "S" "2020-01-01" 7 [] .integrityError .integrityError
    rfl rfl rfl rfl

/-- Claim C7, counterexample to the claim as stated: `conflictStore` holds an
album row matching the conflicting create case-insensitively by name (and
its artist set trivially contains the empty resolved set), so the claim
predicts the disambiguation lookup returns that row; the album conflict path
instead fails with `ValidationError` when the fallback queryset is
constructed, performing no lookup at all. -/
theorem C7_counterexample :
    (match get_or_create_album conflictStore "X" "2020-01-01" "single" [] "k" with
     | .ok _ => false
     | .error e => e == .validationError) = true := by decide

/-- Claim C8 (confirmed).  Running the discography workflow for `Radiohead`
against the stub catalog that lists two albums, each naming `Radiohead` as
its single artist, leaves exactly one Artist row named `Radiohead` and two
Album rows, each of whose artist relationship sets contains that artist. -/
theorem C8_discography_two_albums :
    (match search_all_albums_by_artist rhCat emptyStore "Radiohead" with
     | .ok st =>
         st.artists.map (fun a => a.name) == ["Radiohead"] &&
         st.albums.length == 2 &&
         st.albums.all (fun b => st.artists.all (fun a => b.artists.contains a.aid))
     | .error _ => false) = true := by decide

/-- Claim C9 (amended).  Every release date whose length differs from 10 —
year-only, year-month such as `1969-08`, or longer than 10 characters — has
`-01-01` appended before the storage write in both the album and the song
path; when the padded result is not a valid calendar date (as with
`1969-08-01-01`), the `DateField` coercion raises `ValidationError` at the
write and no row is stored — the malformed string is handed to the write but
never persisted, and neither is `1969-08-01`. -/
theorem C9_padding_then_validation_error (st : Store) (d n ty aid sn : String)
    (alb : AlbumRow) (pop : Int) (arts sarts : List Nat)
    (hd : d.length ≠ 10)
    (hv : is_valid_date (d ++ "-01-01") = false) :
    normalize_release_date d = d ++ "-01-01" ∧
    normalize_release_date "1969-08" = "1969-08-01-01" ∧
    is_valid_date "1969-08-01-01" = false ∧
    get_or_create_album st n d ty arts aid = .error .validationError ∧
    get_or_create_song st sn alb d pop sarts = .error .validationError := by
  have hn : normalize_release_date d = d ++ "-01-01" := by
    rw [normalize_release_date, if_pos (by simpa using hd)]
  have hvn : is_valid_date (normalize_release_date d) = false := by
    rw [hn]; exact hv
  refine ⟨hn, by decide, by decide, ?_, ?_⟩
  · simp [get_or_create_album, Store.albumGetOrCreate, hvn]
  · simp [get_or_create_song, Store.songGetOrCreate, hvn]

/-- Claim C9, witness: the amended theorem applied to the year-month date
`1969-08` on the empty store. -/
theorem C9_witness :
    normalize_release_date "1969-08" = "1969-08" ++ "-01-01" ∧
    normalize_release_date "1969-08" = "1969-08-01-01" ∧
    is_valid_date "1969-08-01-01" = false ∧
    get_or_create_album emptyStore "A" "1969-08" "album" [] "k" =
      .error .validationError ∧
    get_or_create_song emptyStore "S" albumRow0 "1969-08" 5 [] =
      .error .validationError :=
  C9_padding_then_validation_error emptyStore "1969-08" "A" "album" "k" "S" albumRow0 5
    [] [] (by decide) (by decide)

/-- Claim C9, counterexample to the claim as stated: the padding does turn
`1969-08` into `1969-08-01-01`, but that value is never stored — the album
write raises `ValidationError` and returns no row, refuting that the
year-month input "is stored as the malformed value". -/
theorem C9_counterexample :
    normalize_release_date "1969-08" = "1969-08-01-01" ∧
    (match get_or_create_album emptyStore "B" "1969-08" "album" [] "q" with
     | .ok _ => false
     | .error e => e == .validationError) = true := ⟨by decide, by decide⟩

/-- Claim C10 (confirmed).  When the natural-key lookup of a get-or-create
finds an existing row, the call returns that row and the store completely
unchanged: no scalar field is edited and no relationship member is attached,
whatever genre or artist entities were passed in — relationship members are
attached only on the creation branch. -/
theorem C10_existing_row_unchanged (st : Store) (n aid : String) (g : List Nat)
    (an ard ty aaid : String) (aartists : List Nat)
    (sn srd : String) (alb : AlbumRow) (pop : Int) (sartists : List Nat)
    (ra : ArtistRow) (rb : AlbumRow) (rs : SongRow)
    (ha : st.artists.filter (fun r => r.name == n && r.artist_id == aid) = [ra])
    (hb : st.albums.filter (fun r =>
        r.name == an && r.release_date == normalize_release_date ard &&
        r.album_type == ty && r.album_id == aaid) = [rb])
    (hs : st.songs.filter (fun r =>
        r.name == sn && r.albumRef == alb.bid &&
        r.release_date == normalize_release_date srd && r.popularity == pop) = [rs])
    (hva : is_valid_date (normalize_release_date ard) = true)
    (hvs : is_valid_date (normalize_release_date srd) = true) :
    get_or_create_artist st n aid g = .ok (st, ra) ∧
    get_or_create_album st an ard ty aartists aaid = .ok (st, rb) ∧
    get_or_create_song st sn alb srd pop sartists = .ok (st, rs) := by
  refine ⟨?_, ?_, ?_⟩
  · simp [get_or_create_artist, Store.artistGetOrCreate, ha]
  · simp [get_or_create_album, Store.albumGetOrCreate, hb, hva]
  · simp [get_or_create_song, Store.songGetOrCreate, hs, hvs]

/-- Claim C10, witness: the theorem applied to `frameStore`, passing fresh
relationship entities (`[7]`) to each call; the pre-existing rows come back
with the store untouched. -/
theorem C10_witness :
    get_or_create_artist frameStore "A" "x" [7] = .ok (frameStore, ⟨0, "A", "x", []⟩) ∧
    get_or_create_album frameStore "B" "2020-01-01" "album" [7] "y" =
      .ok (frameStore, ⟨1, "B", "2020-01-01", "album", "y", []⟩) ∧
    get_or_create_song frameStore "S" frameAlbum "2020-01-01" 5 [7] =
      .ok (frameStore, ⟨2, "S", 1, "2020-01-01", 5, []⟩) :=
  C10_existing_row_unchanged frameStore "A" "x" [7] "B" "2020-01-01" "album" "y" [7]
    "S" "2020-01-01" frameAlbum 5 [7]
    ⟨0, "A", "x", []⟩ ⟨1, "B", "2020-01-01", "album", "y", []⟩ ⟨2, "S", 1, "2020-01-01", 5, []⟩
    rfl rfl rfl (by decide) (by decide)
